import Mathlib

/-!
Verification of the Copis/nagios-plugins repository (two Nagios plugin
scripts for Pure Storage FlashArrays: `check_purefa_alert.py` and
`check_purefa_occpy.py`) against its natural-language specification.

The probe logic, the severity counting and the REST-error wrapping are
embedded directly from the two Python sources.  The threshold-range
grammar, the threshold evaluator and the verdict aggregator live in the
external `nagiosplugin` framework, which is not part of the repository;
those components are modelled from the specification and marked as such
in their doc comments.
-/

namespace PureFA

/-- Modelled from the spec: §3 Verdict — the four plugin states produced by
the framework (`nagiosplugin` state classes are not in the repository).
`OK < WARNING < CRITICAL`; `UNKNOWN` dominates all. -/
inductive Verdict
  | OK
  | WARNING
  | CRITICAL
  | UNKNOWN
deriving DecidableEq, Fintype

/-- Severity rank of a verdict: `OK < WARNING < CRITICAL`, with `UNKNOWN`
dominating every other verdict. -/
def sev : Verdict → ℕ
  | .OK => 0
  | .WARNING => 1
  | .CRITICAL => 2
  | .UNKNOWN => 3

/-- The more severe of two verdicts. -/
def vmax (a b : Verdict) : Verdict :=
  if sev a < sev b then b else a

/-- Modelled from the spec: §4.5 Verdict Aggregator — the overall verdict is
the worst per-metric verdict; a check that produced no metric at all is
`UNKNOWN` ("no data"), not vacuously `OK`. -/
def aggregate (vs : List Verdict) : Verdict :=
  if vs.isEmpty then .UNKNOWN else vs.foldl vmax .OK

/-- Modelled from the spec: §4.1 — a parsed threshold range.  `lo = none`
means unbounded below (negative infinity), `hi = none` unbounded above;
`invert` records a leading `@`. -/
structure Range where
  invert : Bool
  lo : Option ℚ
  hi : Option ℚ
deriving DecidableEq

/-- Modelled from the spec: §4.1 — a range accepts a value when it lies
inside `[lo, hi]` (missing bound = infinity); a leading `@` inverts the
test. -/
def accepts (r : Range) (v : ℚ) : Bool :=
  let inside :=
    (match r.lo with
     | none => true
     | some a => decide (a ≤ v)) &&
    (match r.hi with
     | none => true
     | some b => decide (v ≤ b))
  if r.invert then !inside else inside

/-- Parse a run of decimal digits, most significant first. -/
def parseNatCore : List Char → ℕ → Option ℕ
  | [], acc => some acc
  | c :: cs, acc =>
    if c.isDigit then parseNatCore cs (acc * 10 + (c.toNat - 48)) else none

/-- Parse a nonempty run of decimal digits. -/
def parseNat : List Char → Option ℕ
  | [] => none
  | cs => parseNatCore cs 0

/-- Split a character list on every colon. -/
def splitColon : List Char → List (List Char)
  | [] => [[]]
  | c :: cs =>
    if c = ':' then [] :: splitColon cs
    else
      match splitColon cs with
      | [] => [[c]]
      | g :: gs => (c :: g) :: gs

/-- Modelled from the spec: §4.1 — one side of a `start:end` expression.
Empty means the supplied default (the metric's declared bound, or
infinity when there is none); `~` is the explicit infinity marker;
otherwise a number. -/
def parseBound (dflt : Option ℚ) : List Char → Option (Option ℚ)
  | [] => some dflt
  | ['~'] => some none
  | cs => (parseNat cs).map (fun n => some (n : ℚ))

/-- Modelled from the spec: §4.1 — the body of a range expression after the
optional leading `@` has been stripped: either a single number `N`
(shorthand for `0:N`) or `start:end`, rejected when `start > end`. -/
def parseBody (inv : Bool) (mmin mmax : Option ℚ) (body : List Char) : Option Range :=
  match splitColon body with
  | [n] => (parseNat n).map (fun k => ⟨inv, some 0, some (k : ℚ)⟩)
  | [a, b] =>
    match parseBound mmin a, parseBound mmax b with
    | some lo, some hi =>
      match lo, hi with
      | some l, some h => if l ≤ h then some ⟨inv, lo, hi⟩ else none
      | _, _ => some ⟨inv, lo, hi⟩
    | _, _ => none
  | _ => none

/-- Modelled from the spec: §4.1 Range Parser (the `nagiosplugin` range
class is not in the repository).  `mmin`/`mmax` are the metric's declared
bounds, used as defaults for omitted sides; the empty expression accepts
everything; a leading `@` inverts. -/
def parseRange (mmin mmax : Option ℚ) (cs : List Char) : Option Range :=
  match cs with
  | [] => some ⟨false, none, none⟩
  | '@' :: body => parseBody true mmin mmax body
  | body => parseBody false mmin mmax body

/-- A named observation, as `nagiosplugin.Metric(name, value, uom, min, max,
context)` is constructed by the two plugins. -/
structure Metric where
  name : String
  value : ℚ
  uom : Option String
  min : Option ℚ
  max : Option ℚ
  context : String
deriving DecidableEq

/-- Acceptance test lifted to an optional range: an absent threshold
accepts every value. -/
def rangeAccepts : Option Range → ℚ → Bool
  | none, _ => true
  | some r, v => accepts r v

/-- Modelled from the spec: §4.4 Threshold Evaluator
(`nagiosplugin.ScalarContext.evaluate` is not in the repository): test the
critical range first, then the warning range; an absent range accepts
everything. -/
def evaluateMetric (warn crit : Option Range) (m : Metric) : Verdict :=
  if !rangeAccepts crit m.value then .CRITICAL
  else if !rangeAccepts warn m.value then .WARNING
  else .OK

/-- Python's `round` rounds half to even; embedding of the rounding used
by `check_purefa_occpy.py` lines 96 and 99, on exact rationals. -/
def roundHalfEven (q : ℚ) : ℤ :=
  if Int.fract q < 1/2 then Int.floor q
  else if 1/2 < Int.fract q then Int.floor q + 1
  else if Int.floor q % 2 = 0 then Int.floor q else Int.floor q + 1

/-- `round(q, 2)` of Python: round `q` to two decimal places. -/
def pyRound2 (q : ℚ) : ℚ := (roundHalfEven (q * 100) : ℚ) / 100

/-- The space record consumed by `PureFAoccpy.probe`: a dict with fields
`total`, `capacity` (array-wide) or `total`, `size`, `volumes`
(per-volume).  `volumes` is the raw byte count, an integer. -/
structure SpaceRecord where
  total : ℚ
  capacity : ℚ
  size : ℚ
  volumes : ℤ
deriving DecidableEq

/-- Embedding of `PureFAoccpy.probe` (check_purefa_occpy.py lines 90–104):
a falsy record yields no metric; with no volume name the array-wide
percentage metric is produced; with a volume name either the percentage
or the raw byte metric, depending on the `-p` flag. -/
def occpyProbe (volname : Option String) (percentage : Bool)
    (fainfo : Option SpaceRecord) : List Metric :=
  match fainfo with
  | none => []
  | some r =>
    match volname with
    | none =>
      [⟨"FA occupancy", pyRound2 (r.total / r.capacity) * 100,
        some "%", some 0, some 100, "occupancy"⟩]
    | some vol =>
      if percentage then
        [⟨vol ++ " occupancy", pyRound2 (r.total / r.size) * 100,
          some "%", some 0, some 100, "occupancy"⟩]
      else
        [⟨vol ++ " occupancy", (r.volumes : ℚ),
          some "B", some 0, none, "occupancy"⟩]

/-- One alert record, carrying its `current_severity` field
(check_purefa_alert.py line 87). -/
structure AlertRecord where
  current_severity : String
deriving DecidableEq

/-- The mutable counters of a `PureFAalert` instance
(check_purefa_alert.py lines 52–54). -/
structure AlertState where
  info : ℕ
  warn : ℕ
  crit : ℕ
deriving DecidableEq

/-- `PureFAalert.__init__` sets all three counters to zero. -/
def alertInit : AlertState := ⟨0, 0, 0⟩

/-- One iteration of the counting loop of `PureFAalert.probe`
(check_purefa_alert.py lines 86–92). -/
def bump (st : AlertState) (a : AlertRecord) : AlertState :=
  if a.current_severity = "critical" then { st with crit := st.crit + 1 }
  else if a.current_severity = "warning" then { st with warn := st.warn + 1 }
  else if a.current_severity = "info" then { st with info := st.info + 1 }
  else st

/-- Embedding of `PureFAalert.probe` (check_purefa_alert.py lines 78–95):
a falsy record set yields three zero metrics; otherwise each record bumps
the instance counter of its severity and the metrics report the
counters.  The updated instance state is returned alongside. -/
def alertProbe (st : AlertState) (fainfo : List AlertRecord) :
    AlertState × List Metric :=
  if fainfo.isEmpty then
    (st, [⟨"critical", 0, none, some 0, none, "critical"⟩,
          ⟨"warning", 0, none, some 0, none, "warning"⟩,
          ⟨"info", 0, none, some 0, none, "info"⟩])
  else
    let st2 := fainfo.foldl bump st
    (st2, [⟨"critical", (st2.crit : ℚ), none, some 0, none, "critical"⟩,
           ⟨"warning", (st2.warn : ℚ), none, some 0, none, "warning"⟩,
           ⟨"info", (st2.info : ℚ), none, some 0, none, "info"⟩])

/-- Number of records whose `current_severity` equals `s`. -/
def countSev (s : String) (recs : List AlertRecord) : ℕ :=
  (recs.filter (fun a => decide (a.current_severity = s))).length

/-- Instance state after `n` successive calls of `alertProbe` on the same
fixed record set (the Python object keeps its counters between calls). -/
def iterProbe (recs : List AlertRecord) : ℕ → AlertState
  | 0 => alertInit
  | n + 1 => (alertProbe (iterProbe recs n) recs).1

/-- Embedding of `PureFAalert.get_alerts` (check_purefa_alert.py lines
66–76): the outcome of the single REST fetch is passed in; any exception
text `e` is re-raised as `CheckError` with message
`FA REST call returned "e"`, a success is returned unchanged. -/
def get_alerts (src : Except String (List AlertRecord)) :
    Except String (List AlertRecord) :=
  match src with
  | .ok fainfo => .ok fainfo
  | .error e => .error ("FA REST call returned \"" ++ e ++ "\"")

/-- Embedding of `PureFAoccpy.get_space` (check_purefa_occpy.py lines
76–88): same single-fetch, wrap-and-re-raise shape as `get_alerts`. -/
def get_space (src : Except String (Option SpaceRecord)) :
    Except String (Option SpaceRecord) :=
  match src with
  | .ok fainfo => .ok fainfo
  | .error e => .error ("FA REST call returned \"" ++ e ++ "\"")

/-- `PureFAalert.probe` including the fetch: a failed fetch propagates the
wrapped error and produces no metrics. -/
def alertProbeE (st : AlertState) (src : Except String (List AlertRecord)) :
    Except String (AlertState × List Metric) :=
  match get_alerts src with
  | .error e => .error e
  | .ok fainfo => .ok (alertProbe st fainfo)

/-- `PureFAoccpy.probe` including the fetch: a failed fetch propagates the
wrapped error and produces no metrics. -/
def occpyProbeE (volname : Option String) (percentage : Bool)
    (src : Except String (Option SpaceRecord)) : Except String (List Metric) :=
  match get_space src with
  | .error e => .error e
  | .ok fainfo => .ok (occpyProbe volname percentage fainfo)

/-- Modelled from the spec: the `nagiosplugin.guarded` runner (not in the
repository) turns a fatal `CheckError` into an `UNKNOWN` verdict;
otherwise the per-metric verdicts are aggregated. -/
def checkVerdict (r : Except String (List Verdict)) : Verdict :=
  match r with
  | .error _ => .UNKNOWN
  | .ok vs => aggregate vs

lemma vmax_ok_left (b : Verdict) : vmax .OK b = b := by
  revert b; decide

lemma vmax_left_le (a b : Verdict) : sev a ≤ sev (vmax a b) := by
  revert a b; decide

lemma vmax_right_le (a b : Verdict) : sev b ≤ sev (vmax a b) := by
  revert a b; decide

lemma vmax_cases (a b : Verdict) : vmax a b = a ∨ vmax a b = b := by
  revert a b; decide

lemma vmax_right_comm (z x y : Verdict) :
    vmax (vmax z x) y = vmax (vmax z y) x := by
  revert z x y; decide

lemma sev_three_unknown (v : Verdict) (h : 3 ≤ sev v) : v = .UNKNOWN := by
  revert v; decide

lemma foldl_vmax_init_le (l : List Verdict) :
    ∀ a, sev a ≤ sev (l.foldl vmax a) := by
  induction l with
  | nil => intro a; exact le_refl _
  | cons b t ih =>
    intro a
    exact le_trans (vmax_left_le a b) (ih (vmax a b))

lemma foldl_vmax_mem (l : List Verdict) :
    ∀ a, l.foldl vmax a = a ∨ l.foldl vmax a ∈ l := by
  induction l with
  | nil => intro a; left; rfl
  | cons b t ih =>
    intro a
    rcases ih (vmax a b) with h | h
    · rcases vmax_cases a b with h2 | h2
      · left; rw [List.foldl_cons, h, h2]
      · right; rw [List.foldl_cons, h, h2]; exact List.mem_cons_self b t
    · right; exact List.mem_cons_of_mem _ h

lemma mem_le_foldl_vmax (l : List Verdict) :
    ∀ a v, v ∈ l → sev v ≤ sev (l.foldl vmax a) := by
  induction l with
  | nil => intro a v h; cases h
  | cons b t ih =>
    intro a v h
    rcases List.mem_cons.mp h with rfl | h
    · exact le_trans (vmax_right_le a v) (foldl_vmax_init_le t (vmax a v))
    · exact ih (vmax a b) v h

lemma aggregate_cons (b : Verdict) (t : List Verdict) :
    aggregate (b :: t) = t.foldl vmax b := by
  show (b :: t).foldl vmax .OK = t.foldl vmax b
  rw [List.foldl_cons, vmax_ok_left]

/-- C1: the overall verdict computed by the Verdict Aggregator is the
maximum of the per-metric verdicts under the severity order
`OK < WARNING < CRITICAL` (it is one of the supplied verdicts and no
supplied verdict is more severe), is `UNKNOWN` whenever any component
verdict is `UNKNOWN` or the metric set is empty, does not depend on the
order in which the verdicts are supplied, and in particular is `UNKNOWN`
when the Occupancy Sampler's probe receives a falsy record and therefore
produces no metric. -/
theorem C1_aggregate_worst_case :
    (∀ vs : List Verdict, vs ≠ [] →
        aggregate vs ∈ vs ∧ ∀ v ∈ vs, sev v ≤ sev (aggregate vs))
    ∧ (∀ vs : List Verdict, Verdict.UNKNOWN ∈ vs → aggregate vs = .UNKNOWN)
    ∧ aggregate [] = .UNKNOWN
    ∧ (∀ vs vs' : List Verdict, vs.Perm vs' → aggregate vs = aggregate vs')
    ∧ (∀ (vol : Option String) (p : Bool) (f : Metric → Verdict),
        aggregate ((occpyProbe vol p none).map f) = .UNKNOWN) := by
  have hmax : ∀ vs : List Verdict, vs ≠ [] →
      aggregate vs ∈ vs ∧ ∀ v ∈ vs, sev v ≤ sev (aggregate vs) := by
    intro vs hne
    match vs with
    | [] => exact absurd rfl hne
    | b :: t =>
      rw [aggregate_cons]
      refine ⟨?_, ?_⟩
      · rcases foldl_vmax_mem t b with h | h
        · rw [h]; exact List.mem_cons_self b t
        · exact List.mem_cons_of_mem _ h
      · intro v hv
        rcases List.mem_cons.mp hv with rfl | hv
        · exact foldl_vmax_init_le t v
        · exact mem_le_foldl_vmax t b v hv
  refine ⟨hmax, ?_, rfl, ?_, ?_⟩
  · intro vs hmem
    have hne : vs ≠ [] := List.ne_nil_of_mem hmem
    exact sev_three_unknown _ ((hmax vs hne).2 _ hmem)
  · intro vs vs' p
    match vs, vs' with
    | [], vs' => rw [p.symm.eq_nil]
    | b :: t, [] => exact absurd p.eq_nil (by simp)
    | b :: t, c :: s =>
      show (b :: t).foldl vmax .OK = (c :: s).foldl vmax .OK
      exact p.foldl_eq' (fun x _ y _ z => vmax_right_comm z x y) .OK
  · intro vol p f; rfl

/-- Witness for C1 at concrete inputs: the aggregate of
`[OK, CRITICAL, WARNING]` is a member bounding the severity of every
member, `UNKNOWN` dominates, and a transposition does not change the
aggregate. -/
theorem C1_aggregate_worst_case_witness :
    (aggregate [Verdict.OK, .CRITICAL, .WARNING] ∈
        [Verdict.OK, .CRITICAL, .WARNING]
      ∧ ∀ v ∈ [Verdict.OK, .CRITICAL, .WARNING],
          sev v ≤ sev (aggregate [Verdict.OK, .CRITICAL, .WARNING]))
    ∧ aggregate [Verdict.OK, .UNKNOWN] = .UNKNOWN
    ∧ aggregate [Verdict.WARNING, .OK] = aggregate [Verdict.OK, .WARNING] :=
  ⟨C1_aggregate_worst_case.1 _ (by decide),
   C1_aggregate_worst_case.2.1 _ (by decide),
   C1_aggregate_worst_case.2.2.2.1 _ _ ((List.Perm.swap Verdict.WARNING Verdict.OK []).symm)⟩

/-- C2: the threshold parser follows the monitoring-plugin range grammar:
the empty expression accepts every value; `start:end` accepts `v` iff
`start ≤ v ≤ end`, an omitted start defaulting to the metric's declared
min (or negative infinity) and an omitted end to its max (or positive
infinity); a single number `N` means `0:N`; a leading `@` inverts
acceptance; `~` is an explicit infinity marker; in particular `10:20`
accepts 15 and rejects 5 and 25, `@10:20` accepts 5 and 25 and rejects
15, and `~:5` accepts exactly the values `≤ 5`. -/
theorem C2_range_grammar :
    (∀ (mmin mmax : Option ℚ), parseRange mmin mmax [] = some ⟨false, none, none⟩)
    ∧ (∀ v : ℚ, accepts ⟨false, none, none⟩ v = true)
    ∧ parseRange none none ['1', '0', ':', '2', '0'] = some ⟨false, some 10, some 20⟩
    ∧ (∀ v : ℚ, accepts ⟨false, some 10, some 20⟩ v = decide (10 ≤ v ∧ v ≤ 20))
    ∧ parseRange none none ['@', '1', '0', ':', '2', '0'] = some ⟨true, some 10, some 20⟩
    ∧ (∀ v : ℚ, accepts ⟨true, some 10, some 20⟩ v = !decide (10 ≤ v ∧ v ≤ 20))
    ∧ parseRange none none ['~', ':', '5'] = some ⟨false, none, some 5⟩
    ∧ (∀ v : ℚ, accepts ⟨false, none, some 5⟩ v = decide (v ≤ 5))
    ∧ parseRange none none ['1', '0', ':', '~'] = some ⟨false, some 10, none⟩
    ∧ (∀ v : ℚ, accepts ⟨false, some 10, none⟩ v = decide (10 ≤ v))
    ∧ parseRange none none ['7'] = some ⟨false, some 0, some 7⟩
    ∧ (∀ mmax : Option ℚ,
        parseRange (some 3) mmax [':', '2', '0'] = some ⟨false, some 3, some 20⟩)
    ∧ parseRange none none [':', '2', '0'] = some ⟨false, none, some 20⟩
    ∧ parseRange none (some 90) ['1', '0', ':'] = some ⟨false, some 10, some 90⟩
    ∧ parseRange none none ['1', '0', ':'] = some ⟨false, some 10, none⟩
    ∧ accepts ⟨false, some 10, some 20⟩ 15 = true
    ∧ accepts ⟨false, some 10, some 20⟩ 5 = false
    ∧ accepts ⟨false, some 10, some 20⟩ 25 = false
    ∧ accepts ⟨true, some 10, some 20⟩ 5 = true
    ∧ accepts ⟨true, some 10, some 20⟩ 25 = true
    ∧ accepts ⟨true, some 10, some 20⟩ 15 = false := by
  refine ⟨fun mmin mmax => rfl, fun v => rfl, rfl, ?_, rfl, ?_, rfl, ?_, rfl, ?_,
    rfl, fun mmax => rfl, rfl, rfl, rfl,
    by decide, by decide, by decide, by decide, by decide, by decide⟩
  · intro v
    by_cases h1 : (10 : ℚ) ≤ v <;> by_cases h2 : v ≤ 20 <;> simp [accepts, h1, h2]
  · intro v
    by_cases h1 : (10 : ℚ) ≤ v <;> by_cases h2 : v ≤ 20 <;> simp [accepts, h1, h2]
  · intro v
    by_cases h2 : v ≤ (5 : ℚ) <;> simp [accepts, h2]
  · intro v
    by_cases h1 : (10 : ℚ) ≤ v <;> simp [accepts, h1]

lemma isEmpty_false_of_ne_nil (recs : List AlertRecord) (h : recs ≠ []) :
    recs.isEmpty = false := by
  cases recs with
  | nil => exact absurd rfl h
  | cons a t => rfl

lemma foldl_bump_counts (recs : List AlertRecord) :
    ∀ st : AlertState,
      recs.foldl bump st =
        ⟨st.info + countSev "info" recs,
         st.warn + countSev "warning" recs,
         st.crit + countSev "critical" recs⟩ := by
  induction recs with
  | nil => intro st; simp [countSev]
  | cons a t ih =>
    intro st
    rw [List.foldl_cons, ih (bump st a)]
    by_cases h1 : a.current_severity = "critical"
    · simp [bump, h1, countSev, List.filter_cons, AlertState.mk.injEq]
      omega
    · by_cases h2 : a.current_severity = "warning"
      · simp [bump, h1, h2, countSev, List.filter_cons, AlertState.mk.injEq]
        omega
      · by_cases h3 : a.current_severity = "info"
        · simp [bump, h1, h2, h3, countSev, List.filter_cons, AlertState.mk.injEq]
          omega
        · simp [bump, h1, h2, h3, countSev, List.filter_cons]

/-- C3: on a fresh instance the Alert Counter's probe returns exactly
three Metrics, in the order critical, warning, info, each with `min = 0`
and no declared max, whose values are the numbers of records whose
`current_severity` equals `critical`, `warning` and `info`; with zero
records all three are 0; and with no thresholds configured the overall
verdict is `OK`. -/
theorem C3_alert_probe_counts :
    (∀ recs : List AlertRecord,
      (alertProbe alertInit recs).2 =
        [⟨"critical", (countSev "critical" recs : ℚ), none, some 0, none, "critical"⟩,
         ⟨"warning", (countSev "warning" recs : ℚ), none, some 0, none, "warning"⟩,
         ⟨"info", (countSev "info" recs : ℚ), none, some 0, none, "info"⟩])
    ∧ (alertProbe alertInit []).2 =
        [⟨"critical", 0, none, some 0, none, "critical"⟩,
         ⟨"warning", 0, none, some 0, none, "warning"⟩,
         ⟨"info", 0, none, some 0, none, "info"⟩]
    ∧ (∀ recs : List AlertRecord,
        aggregate (((alertProbe alertInit recs).2).map
          (evaluateMetric none none)) = .OK) := by
  have hmain : ∀ recs : List AlertRecord,
      (alertProbe alertInit recs).2 =
        [⟨"critical", (countSev "critical" recs : ℚ), none, some 0, none, "critical"⟩,
         ⟨"warning", (countSev "warning" recs : ℚ), none, some 0, none, "warning"⟩,
         ⟨"info", (countSev "info" recs : ℚ), none, some 0, none, "info"⟩] := by
    intro recs
    by_cases h : recs = []
    · subst h; simp [alertProbe, countSev]
    · simp [alertProbe, isEmpty_false_of_ne_nil recs h, foldl_bump_counts recs,
        alertInit]
  refine ⟨hmain, by rfl, ?_⟩
  intro recs
  rw [hmain recs]
  rfl

/-- C10: the severity counters are instance state initialized to zero and
never reset, so on a fixed non-empty record set the `n`-th successive
probe call reports `n` times the per-severity record counts; whenever
some record actually carries one of the three counted severities, the
second call differs from the first (probe is not idempotent). -/
theorem C10_counters_accumulate :
    alertInit = ⟨0, 0, 0⟩
    ∧ (∀ recs : List AlertRecord, recs ≠ [] →
        (∀ n : ℕ,
          (alertProbe (iterProbe recs n) recs).2 =
            [⟨"critical", (((n + 1) * countSev "critical" recs : ℕ) : ℚ),
              none, some 0, none, "critical"⟩,
             ⟨"warning", (((n + 1) * countSev "warning" recs : ℕ) : ℚ),
              none, some 0, none, "warning"⟩,
             ⟨"info", (((n + 1) * countSev "info" recs : ℕ) : ℚ),
              none, some 0, none, "info"⟩])
        ∧ (0 < countSev "critical" recs →
            (alertProbe (iterProbe recs 1) recs).2 ≠
              (alertProbe (iterProbe recs 0) recs).2)) := by
  have hstate : ∀ (recs : List AlertRecord), recs ≠ [] → ∀ n : ℕ,
      iterProbe recs n =
        ⟨n * countSev "info" recs, n * countSev "warning" recs,
         n * countSev "critical" recs⟩ := by
    intro recs h n
    induction n with
    | zero => simp [iterProbe, alertInit]
    | succ k ih =>
      show (alertProbe (iterProbe recs k) recs).1 = _
      rw [ih]
      simp [alertProbe, isEmpty_false_of_ne_nil recs h, foldl_bump_counts recs,
        AlertState.mk.injEq, Nat.succ_mul]
  have hmain : ∀ recs : List AlertRecord, recs ≠ [] → ∀ n : ℕ,
      (alertProbe (iterProbe recs n) recs).2 =
        [⟨"critical", (((n + 1) * countSev "critical" recs : ℕ) : ℚ),
          none, some 0, none, "critical"⟩,
         ⟨"warning", (((n + 1) * countSev "warning" recs : ℕ) : ℚ),
          none, some 0, none, "warning"⟩,
         ⟨"info", (((n + 1) * countSev "info" recs : ℕ) : ℚ),
          none, some 0, none, "info"⟩] := by
    intro recs h n
    rw [hstate recs h n]
    simp [alertProbe, isEmpty_false_of_ne_nil recs h, foldl_bump_counts recs, Metric.mk.injEq,
      Nat.succ_mul]
  refine ⟨rfl, fun recs h => ⟨hmain recs h, ?_⟩⟩
  intro hpos heq
  rw [hmain recs h 1, hmain recs h 0] at heq
  injection heq with hhead htail
  injection hhead with hname hval
  have hnat := Nat.cast_inj (R := ℚ) |>.mp hval
  omega

/-- C4: in array-wide mode, for every non-falsy space record with nonzero
capacity the Occupancy Sampler produces exactly one Metric named
`FA occupancy` with unit `%`, `min = 0`, `max = 100`, and value
`round(total/capacity, 2) * 100`, the ratio being rounded to two decimal
places before scaling; `{total: 50, capacity: 200}` yields 25.0, which
with warning range `0:80` and critical range `0:95` gives verdict `OK`. -/
theorem C4_array_occupancy :
    (∀ (p : Bool) (r : SpaceRecord), r.capacity ≠ 0 →
      occpyProbe none p (some r) =
        [⟨"FA occupancy", pyRound2 (r.total / r.capacity) * 100,
          some "%", some 0, some 100, "occupancy"⟩])
    ∧ occpyProbe none false (some ⟨50, 200, 1, 0⟩) =
        [⟨"FA occupancy", 25, some "%", some 0, some 100, "occupancy"⟩]
    ∧ evaluateMetric (parseRange (some 0) (some 100) ['0', ':', '8', '0'])
        (parseRange (some 0) (some 100) ['0', ':', '9', '5'])
        ⟨"FA occupancy", 25, some "%", some 0, some 100, "occupancy"⟩ = .OK
    ∧ aggregate ((occpyProbe none false (some ⟨50, 200, 1, 0⟩)).map
        (evaluateMetric (parseRange (some 0) (some 100) ['0', ':', '8', '0'])
          (parseRange (some 0) (some 100) ['0', ':', '9', '5']))) = .OK := by
  have hex : occpyProbe none false (some ⟨50, 200, 1, 0⟩) =
      [⟨"FA occupancy", 25, some "%", some 0, some 100, "occupancy"⟩] := by
    simp only [occpyProbe]
    norm_num [pyRound2, roundHalfEven, Int.fract]
  refine ⟨fun p r _ => rfl, hex, by decide, ?_⟩
  rw [hex]
  decide

/-- Witness for C4: the array-wide equation applied at the concrete record
`{total: 50, capacity: 200}`, whose capacity is nonzero. -/
theorem C4_array_occupancy_witness :
    occpyProbe none false (some ⟨50, 200, 1, 0⟩) =
      [⟨"FA occupancy",
        pyRound2 ((⟨50, 200, 1, 0⟩ : SpaceRecord).total /
          (⟨50, 200, 1, 0⟩ : SpaceRecord).capacity) * 100,
        some "%", some 0, some 100, "occupancy"⟩] :=
  C4_array_occupancy.1 false ⟨50, 200, 1, 0⟩ (by norm_num)

/-- C5: the Threshold Evaluator tests the critical range first: a value
rejected by the critical range gives `CRITICAL`; otherwise a value
rejected by the warning range gives `WARNING`; otherwise `OK`; an absent
range accepts everything, and the evaluation is a pure function (equal
inputs give equal verdicts). -/
theorem C5_threshold_evaluator :
    ∀ (warn crit : Option Range) (m : Metric),
      (rangeAccepts crit m.value = false → evaluateMetric warn crit m = .CRITICAL)
      ∧ (rangeAccepts crit m.value = true → rangeAccepts warn m.value = false →
          evaluateMetric warn crit m = .WARNING)
      ∧ (rangeAccepts crit m.value = true → rangeAccepts warn m.value = true →
          evaluateMetric warn crit m = .OK)
      ∧ (∀ v : ℚ, rangeAccepts none v = true)
      ∧ evaluateMetric warn crit m = evaluateMetric warn crit m := by
  intro warn crit m
  refine ⟨?_, ?_, ?_, fun v => rfl, rfl⟩
  · intro h; simp [evaluateMetric, h]
  · intro h1 h2; simp [evaluateMetric, h1, h2]
  · intro h1 h2; simp [evaluateMetric, h1, h2]

/-- Witness for C5: a value outside the critical range `0:3` is
`CRITICAL`; one inside `0:3` but outside the warning range `0:2` is
`WARNING`; one inside both is `OK`. -/
theorem C5_threshold_evaluator_witness :
    evaluateMetric none (some ⟨false, some 0, some 3⟩)
        ⟨"m", 5, none, none, none, "m"⟩ = .CRITICAL
    ∧ evaluateMetric (some ⟨false, some 0, some 2⟩) (some ⟨false, some 0, some 3⟩)
        ⟨"m", 3, none, none, none, "m"⟩ = .WARNING
    ∧ evaluateMetric (some ⟨false, some 0, some 2⟩) (some ⟨false, some 0, some 3⟩)
        ⟨"m", 1, none, none, none, "m"⟩ = .OK :=
  ⟨(C5_threshold_evaluator none (some ⟨false, some 0, some 3⟩)
      ⟨"m", 5, none, none, none, "m"⟩).1 (by decide),
   (C5_threshold_evaluator (some ⟨false, some 0, some 2⟩)
      (some ⟨false, some 0, some 3⟩) ⟨"m", 3, none, none, none, "m"⟩).2.1
      (by decide) (by decide),
   (C5_threshold_evaluator (some ⟨false, some 0, some 2⟩)
      (some ⟨false, some 0, some 3⟩) ⟨"m", 1, none, none, none, "m"⟩).2.2.1
      (by decide) (by decide)⟩

/-- C6: in per-volume percentage mode, for every non-falsy record with
nonzero size the Occupancy Sampler produces exactly one Metric named
`<volume> occupancy` with unit `%`, `min = 0`, `max = 100`, and value
`round(total/size, 2) * 100`, the ratio being rounded to two decimal
places before multiplying by 100. -/
theorem C6_volume_percentage :
    (∀ (vol : String) (r : SpaceRecord), r.size ≠ 0 →
      occpyProbe (some vol) true (some r) =
        [⟨vol ++ " occupancy", pyRound2 (r.total / r.size) * 100,
          some "%", some 0, some 100, "occupancy"⟩])
    ∧ occpyProbe (some "vol1") true (some ⟨50, 1, 200, 0⟩) =
        [⟨"vol1 occupancy", 25, some "%", some 0, some 100, "occupancy"⟩] := by
  refine ⟨fun vol r _ => rfl, ?_⟩
  have hval : pyRound2 ((50 : ℚ) / 200) * 100 = 25 := by
    norm_num [pyRound2, roundHalfEven, Int.fract]
  show [(⟨"vol1" ++ " occupancy", pyRound2 ((50 : ℚ) / 200) * 100,
    some "%", some 0, some 100, "occupancy"⟩ : Metric)] = _
  rw [hval]
  rfl

/-- Witness for C6: the per-volume percentage equation applied at the
concrete record `{total: 50, size: 200}`, whose size is nonzero. -/
theorem C6_volume_percentage_witness :
    occpyProbe (some "vol1") true (some ⟨50, 1, 200, 0⟩) =
      [⟨"vol1" ++ " occupancy",
        pyRound2 ((⟨50, 1, 200, 0⟩ : SpaceRecord).total /
          (⟨50, 1, 200, 0⟩ : SpaceRecord).size) * 100,
        some "%", some 0, some 100, "occupancy"⟩] :=
  C6_volume_percentage.1 "vol1" ⟨50, 1, 200, 0⟩ (by norm_num)

/-- C7: in per-volume byte mode (the default), for every non-falsy record
the Occupancy Sampler produces exactly one Metric named
`<volume> occupancy` with unit `B`, `min = 0`, no max, and value equal to the
raw `volumes` count converted to an integer; `{volumes: 12345}` yields
value 12345. -/
theorem C7_volume_bytes :
    (∀ (vol : String) (r : SpaceRecord),
      occpyProbe (some vol) false (some r) =
        [⟨vol ++ " occupancy", (r.volumes : ℚ), some "B", some 0, none, "occupancy"⟩])
    ∧ occpyProbe (some "vol1") false (some ⟨1, 1, 1, 12345⟩) =
        [⟨"vol1 occupancy", 12345, some "B", some 0, none, "occupancy"⟩] :=
  ⟨fun vol r => rfl, by rfl⟩

/-- C8: a failed fetch is surfaced by both Metric Sources as a fatal
CheckError whose message contains the underlying error text, producing no
metrics and resulting in an `UNKNOWN` verdict; a successful fetch raises
no such error. -/
theorem C8_fetch_errors_fatal :
    (∀ e : String, get_alerts (.error e) =
        .error ("FA REST call returned \"" ++ e ++ "\""))
    ∧ (∀ e : String, get_space (.error e) =
        .error ("FA REST call returned \"" ++ e ++ "\""))
    ∧ (∀ (e : String) (st : AlertState),
        alertProbeE st (.error e) =
          .error ("FA REST call returned \"" ++ e ++ "\""))
    ∧ (∀ (e : String) (vol : Option String) (p : Bool),
        occpyProbeE vol p (.error e) =
          .error ("FA REST call returned \"" ++ e ++ "\""))
    ∧ (∀ e : String, checkVerdict (.error e) = .UNKNOWN)
    ∧ (∀ recs : List AlertRecord, get_alerts (.ok recs) = .ok recs)
    ∧ (∀ fainfo : Option SpaceRecord, get_space (.ok fainfo) = .ok fainfo)
    ∧ (∀ (st : AlertState) (recs : List AlertRecord),
        alertProbeE st (.ok recs) = .ok (alertProbe st recs))
    ∧ (∀ (vol : Option String) (p : Bool) (fainfo : Option SpaceRecord),
        occpyProbeE vol p (.ok fainfo) = .ok (occpyProbe vol p fainfo)) :=
  ⟨fun _ => rfl, fun _ => rfl, fun _ _ => rfl, fun _ _ _ => rfl,
   fun _ => rfl, fun _ => rfl, fun _ => rfl, fun _ _ => rfl,
   fun _ _ _ => rfl⟩

/-- C9: in whole-array mode the percentage flag has no effect: two runs of
the Occupancy Sampler that differ only in the percentage flag produce the
identical metrics. -/
theorem C9_percentage_no_effect_array :
    ∀ (p q : Bool) (fainfo : Option SpaceRecord),
      occpyProbe none p fainfo = occpyProbe none q fainfo := by
  intro p q fainfo
  cases fainfo <;> rfl

/-- Witness for C10: on the single-record set `[{critical}]` the second
call reports `critical = 2` and differs from the first call. -/
theorem C10_counters_accumulate_witness :
    (alertProbe (iterProbe [⟨"critical"⟩] 1) [⟨"critical"⟩]).2 =
      [⟨"critical", (((1 + 1) * countSev "critical" [⟨"critical"⟩] : ℕ) : ℚ),
        none, some 0, none, "critical"⟩,
       ⟨"warning", (((1 + 1) * countSev "warning" [⟨"critical"⟩] : ℕ) : ℚ),
        none, some 0, none, "warning"⟩,
       ⟨"info", (((1 + 1) * countSev "info" [⟨"critical"⟩] : ℕ) : ℚ),
        none, some 0, none, "info"⟩]
    ∧ (alertProbe (iterProbe [⟨"critical"⟩] 1) [⟨"critical"⟩]).2 ≠
        (alertProbe (iterProbe [⟨"critical"⟩] 0) [⟨"critical"⟩]).2 :=
  ⟨(C10_counters_accumulate.2 [⟨"critical"⟩] (by decide)).1 1,
   (C10_counters_accumulate.2 [⟨"critical"⟩] (by decide)).2 (by decide)⟩

end PureFA
